import Mathlib

/-!
Verification of the Next-Raydium launch-pad programs (bonding curve and CLMM AMM).

The Rust sources are shallowly embedded: u64 and u128 values are natural numbers
with explicit bound checks at every checked operation, i128 values are integers
with explicit bound checks, and fallible Rust functions returning anchor Results
become Except-valued Lean functions.  Unchecked Rust arithmetic that can wrap in
release builds is modelled with an explicit reduction modulo 2 to the 128.
Public keys are abstracted as natural numbers; they are only compared for
equality.
-/

namespace LaunchPad

/-- Largest u64 value. -/
def U64_MAX : Nat := 18446744073709551615

/-- Largest u32 value. -/
def U32_MAX : Nat := 4294967295

/-- Largest u128 value. -/
def U128_MAX : Nat := 340282366920938463463374607431768211455

/-- u128 modulus, for modelling wrapping multiplication. -/
def U128_MOD : Nat := 340282366920938463463374607431768211456

/-- Largest i128 value. -/
def I128_MAX : Int := 170141183460469231731687303715884105727

/-- Smallest i128 value. -/
def I128_MIN : Int := -170141183460469231731687303715884105728

/-- Error kinds of the bonding-curve program (bonding-curve/src/errors.rs),
restricted to those reachable from the embedded instructions.
AccountConstraintViolated models an anchor account constraint failure
(the constraint attribute on an account), which aborts before the handler runs. -/
inductive BcError where
  | Overflow
  | Underflow
  | DivisionByZero
  | InvalidPrice
  | InvalidTokenAmount
  | InsufficientTokenReserves
  | InsufficientSolReserves
  | AlreadyMigrated
  | SlippageExceeded
  | InvalidSolAmount
  | ZeroAmountTransfer
  | InvalidAdminAuthority
  | InvalidMultisigAuthority
  | AccountConstraintViolated
  deriving DecidableEq, Repr

/-- Error kinds of the AMM program (amm/src/errors.rs), restricted to those
reachable from the embedded functions. -/
inductive AmmError where
  | Overflow
  | Underflow
  | DivisionByZero
  | TickOutOfBounds
  | InvalidSqrtPrice
  | InvalidTickRange
  | InvalidTickArray
  | InvalidLiquidityAmount
  | InvalidTokenAmount
  | SlippageExceeded
  deriving DecidableEq, Repr

/-- Rust u64 checked_add, with ok_or attaching the error. -/
def cAdd64 {e : Type} (a b : Nat) (err : e) : Except e Nat :=
  if a + b ≤ U64_MAX then Except.ok (a + b) else Except.error err

/-- Rust u32 checked_add. -/
def cAdd32 {e : Type} (a b : Nat) (err : e) : Except e Nat :=
  if a + b ≤ U32_MAX then Except.ok (a + b) else Except.error err

/-- Rust u64/u128 checked_sub (natural subtraction guarded by the borrow check). -/
def cSub {e : Type} (a b : Nat) (err : e) : Except e Nat :=
  if b ≤ a then Except.ok (a - b) else Except.error err

/-- Rust u64 checked_mul. -/
def cMul64 {e : Type} (a b : Nat) (err : e) : Except e Nat :=
  if a * b ≤ U64_MAX then Except.ok (a * b) else Except.error err

/-- Rust u128 checked_mul. -/
def cMul128 {e : Type} (a b : Nat) (err : e) : Except e Nat :=
  if a * b ≤ U128_MAX then Except.ok (a * b) else Except.error err

/-- Rust u128 checked_add. -/
def cAdd128 {e : Type} (a b : Nat) (err : e) : Except e Nat :=
  if a + b ≤ U128_MAX then Except.ok (a + b) else Except.error err

/-- Rust checked_div: fails only when the divisor is zero. -/
def cDiv {e : Type} (a b : Nat) (err : e) : Except e Nat :=
  if b = 0 then Except.error err else Except.ok (a / b)

/-- Rust checked_rem: fails only when the divisor is zero. -/
def cRem {e : Type} (a b : Nat) (err : e) : Except e Nat :=
  if b = 0 then Except.error err else Except.ok (a % b)

/-- Rust i128 checked_add. -/
def cAddI128 {e : Type} (a b : Int) (err : e) : Except e Int :=
  if I128_MIN ≤ a + b ∧ a + b ≤ I128_MAX then Except.ok (a + b) else Except.error err

/-- Rust i128 checked_sub. -/
def cSubI128 {e : Type} (a b : Int) (err : e) : Except e Int :=
  if I128_MIN ≤ a - b ∧ a - b ≤ I128_MAX then Except.ok (a - b) else Except.error err

/-- Rust u64 pattern a.checked_mul(b).and_then(div d).ok_or(err):
both a multiplication overflow and a zero divisor collapse to the same error. -/
def cMulDiv64 {e : Type} (a b d : Nat) (err : e) : Except e Nat :=
  if a * b ≤ U64_MAX ∧ d ≠ 0 then Except.ok (a * b / d) else Except.error err

/-- Rust cast from u128 to i128 (bit reinterpretation: values at or above
2 to the 127 become negative). -/
def u128_as_i128 (x : Nat) : Int :=
  if x < 170141183460469231731687303715884105728 then (x : Int)
  else (x : Int) - 340282366920938463463374607431768211456

/-- Decidable success test for Except values. -/
def isOkE {e α : Type} : Except e α → Bool
  | Except.ok _ => true
  | Except.error _ => false

/-! ## Bonding-curve pricing (bonding-curve/src/instructions/buy_tokens.rs and
sell_tokens.rs) -/

/-- calculate_buy_cost from buy_tokens.rs lines 297-338, step for step:
require checks, then checked u64 arithmetic on the combined virtual reserves. -/
def calculate_buy_cost (token_amount virtual_sol_reserves virtual_token_reserves
    real_sol_reserves real_token_reserves : Nat) : Except BcError Nat := do
  if virtual_sol_reserves = 0 then throw BcError.InvalidPrice
  if virtual_token_reserves = 0 then throw BcError.InvalidPrice
  if token_amount = 0 then throw BcError.InvalidTokenAmount
  if real_token_reserves < token_amount then throw BcError.InsufficientTokenReserves
  let current_virtual_sol ← cAdd64 virtual_sol_reserves real_sol_reserves BcError.Overflow
  let current_virtual_tokens ← cSub virtual_token_reserves real_token_reserves BcError.Underflow
  let new_virtual_tokens ← cSub current_virtual_tokens token_amount BcError.Underflow
  let k ← cMul64 current_virtual_sol current_virtual_tokens BcError.Overflow
  let new_virtual_sol ← cDiv k new_virtual_tokens BcError.DivisionByZero
  let sol_cost ← cSub new_virtual_sol current_virtual_sol BcError.Underflow
  return sol_cost

/-- calculate_sell_proceeds from sell_tokens.rs lines 295-336, step for step. -/
def calculate_sell_proceeds (token_amount virtual_sol_reserves virtual_token_reserves
    real_sol_reserves real_token_reserves : Nat) : Except BcError Nat := do
  if virtual_sol_reserves = 0 then throw BcError.InvalidPrice
  if virtual_token_reserves = 0 then throw BcError.InvalidPrice
  if token_amount = 0 then throw BcError.InvalidTokenAmount
  if real_sol_reserves = 0 then throw BcError.InsufficientSolReserves
  let current_virtual_sol ← cAdd64 virtual_sol_reserves real_sol_reserves BcError.Overflow
  let current_virtual_tokens ← cSub virtual_token_reserves real_token_reserves BcError.Underflow
  let new_virtual_tokens ← cAdd64 current_virtual_tokens token_amount BcError.Overflow
  let k ← cMul64 current_virtual_sol current_virtual_tokens BcError.Overflow
  let new_virtual_sol ← cDiv k new_virtual_tokens BcError.DivisionByZero
  let sol_proceeds ← cSub current_virtual_sol new_virtual_sol BcError.Underflow
  return sol_proceeds

/-! ## Bonding-curve state and instruction steps (bonding-curve/src/state.rs,
buy_tokens.rs, sell_tokens.rs, migrate_to_amm.rs) -/

/-- Global configuration account of the bonding-curve program
(bonding-curve/src/state.rs).  The version byte and the reserved padding are
omitted; public keys are natural numbers. -/
structure Global where
  admin_authority : Nat
  multisig_authority : Nat
  platform_wallet : Nat
  creator_wallet : Nat
  platform_fee_basis_points : Nat
  creator_fee_basis_points : Nat
  migration_fee_basis_points : Nat
  max_slippage_basis_points : Nat
  migration_enabled : Bool
  is_paused : Bool
  total_volume_sol : Nat
  total_fees_collected : Nat
  tokens_created : Nat
  successful_migrations : Nat
  deriving DecidableEq, Repr

/-- BondingCurve account (bonding-curve/src/state.rs).  The PDA bump seeds and
the reserved padding are omitted; public keys are natural numbers. -/
structure BondingCurve where
  token_mint : Nat
  creator : Nat
  name : String
  symbol : String
  virtual_sol_reserves : Nat
  virtual_token_reserves : Nat
  real_sol_reserves : Nat
  real_token_reserves : Nat
  lp_reserve_supply : Nat
  migration_threshold : Nat
  migration_ready : Bool
  is_migrated : Bool
  amm_program_id : Option Nat
  amm_pool_address : Option Nat
  total_volume_sol : Nat
  total_volume_tokens : Nat
  platform_fees_collected : Nat
  creator_fees_collected : Nat
  buy_count : Nat
  sell_count : Nat
  created_at : Int
  last_trade_at : Int
  deriving DecidableEq, Repr

/-- UserVolumeAccumulator account (bonding-curve/src/state.rs). -/
structure UserVolumeAccumulator where
  user : Nat
  volume_sol : Nat
  volume_tokens : Nat
  trades_count : Nat
  last_trade_timestamp : Int
  deriving DecidableEq, Repr

/-- BondingCurve is_migration_threshold_met (state.rs lines 164-166). -/
def is_migration_threshold_met (bc : BondingCurve) : Bool :=
  bc.migration_threshold ≤ bc.real_sol_reserves

/-- BondingCurve current_price (state.rs lines 169-197): price scaled by 1e9,
with an explicit pre-check that the scaling multiplication cannot overflow. -/
def current_price (bc : BondingCurve) : Except BcError Nat := do
  let total_sol ← cAdd64 bc.virtual_sol_reserves bc.real_sol_reserves BcError.Overflow
  let total_tokens ← cSub bc.virtual_token_reserves bc.real_token_reserves BcError.Underflow
  if total_tokens = 0 then throw BcError.DivisionByZero
  if U64_MAX / 1000000000 < total_sol then throw BcError.Overflow
  let scaled_sol ← cMul64 total_sol 1000000000 BcError.Overflow
  cDiv scaled_sol total_tokens BcError.DivisionByZero

/-- BondingCurve validate_trade_amounts (state.rs lines 200-221). -/
def validate_trade_amounts (bc : BondingCurve) (token_amount : Nat) (is_buy : Bool) :
    Except BcError Unit := do
  if token_amount = 0 then throw BcError.InvalidTokenAmount
  if bc.is_migrated then throw BcError.AlreadyMigrated
  if is_buy then
    if bc.real_token_reserves < token_amount then throw BcError.InsufficientTokenReserves
  else
    let circulating_supply ←
      cSub bc.virtual_token_reserves bc.real_token_reserves BcError.Underflow
    if circulating_supply < token_amount then throw BcError.InvalidTokenAmount

/-- Result of a successful buy: the updated accounts plus the transfer amounts
(the SOL and token transfers themselves are host-side effects). -/
structure BuyOutcome where
  global : Global
  curve : BondingCurve
  user : UserVolumeAccumulator
  sol_cost : Nat
  platform_fee : Nat
  creator_fee : Nat
  tokens_out : Nat
  deriving DecidableEq, Repr

/-- State-transition core of buy_tokens (buy_tokens.rs lines 87-294): the
anchor account constraints (global not paused, curve not migrated), the require
checks, the pricing call, the fee computation, and every checked ledger update,
in source order.  buyer_lamports stands for the buyer account balance and now
for the clock timestamp.  On any error the whole instruction aborts with no
state change, which the Except result models. -/
def buy_tokens_step (g : Global) (bc : BondingCurve) (uv : UserVolumeAccumulator)
    (buyer_lamports token_amount max_sol_cost : Nat) (now : Int) :
    Except BcError BuyOutcome := do
  if g.is_paused then throw BcError.AccountConstraintViolated
  if bc.is_migrated then throw BcError.AccountConstraintViolated
  if max_sol_cost = 0 then throw BcError.InvalidSolAmount
  validate_trade_amounts bc token_amount true
  let sol_cost ← calculate_buy_cost token_amount bc.virtual_sol_reserves
    bc.virtual_token_reserves bc.real_sol_reserves bc.real_token_reserves
  if max_sol_cost < sol_cost then throw BcError.SlippageExceeded
  let platform_fee ← cMulDiv64 sol_cost g.platform_fee_basis_points 10000 BcError.Overflow
  let creator_fee ← cMulDiv64 sol_cost g.creator_fee_basis_points 10000 BcError.Overflow
  let cost_plus_platform ← cAdd64 sol_cost platform_fee BcError.Overflow
  let total_cost ← cAdd64 cost_plus_platform creator_fee BcError.Overflow
  if buyer_lamports < total_cost then throw BcError.InsufficientSolReserves
  let rs2 ← cAdd64 bc.real_sol_reserves sol_cost BcError.Overflow
  let rt2 ← cSub bc.real_token_reserves token_amount BcError.Underflow
  let tvs2 ← cAdd64 bc.total_volume_sol sol_cost BcError.Overflow
  let tvt2 ← cAdd64 bc.total_volume_tokens token_amount BcError.Overflow
  let pfc2 ← cAdd64 bc.platform_fees_collected platform_fee BcError.Overflow
  let cfc2 ← cAdd64 bc.creator_fees_collected creator_fee BcError.Overflow
  let bcount2 ← cAdd32 bc.buy_count 1 BcError.Overflow
  let gvol2 ← cAdd64 g.total_volume_sol sol_cost BcError.Overflow
  let gfee2 ← cAdd64 g.total_fees_collected platform_fee BcError.Overflow
  let uvs2 ← cAdd64 uv.volume_sol sol_cost BcError.Overflow
  let uvt2 ← cAdd64 uv.volume_tokens token_amount BcError.Overflow
  let utc2 ← cAdd32 uv.trades_count 1 BcError.Overflow
  let bc1 : BondingCurve :=
    { bc with
      real_sol_reserves := rs2
      real_token_reserves := rt2
      total_volume_sol := tvs2
      total_volume_tokens := tvt2
      platform_fees_collected := pfc2
      creator_fees_collected := cfc2
      buy_count := bcount2
      last_trade_at := now }
  let g1 : Global := { g with total_volume_sol := gvol2, total_fees_collected := gfee2 }
  let uv1 : UserVolumeAccumulator :=
    { uv with
      volume_sol := uvs2
      volume_tokens := uvt2
      trades_count := utc2
      last_trade_timestamp := now }
  let _ ← current_price bc1
  let bc2 : BondingCurve :=
    if is_migration_threshold_met bc1 ∧ bc1.migration_ready = false
    then { bc1 with migration_ready := true } else bc1
  return ⟨g1, bc2, uv1, sol_cost, platform_fee, creator_fee, token_amount⟩

/-- Result of a successful sell. -/
structure SellOutcome where
  global : Global
  curve : BondingCurve
  user : UserVolumeAccumulator
  sol_received : Nat
  net_sol_received : Nat
  platform_fee : Nat
  creator_fee : Nat
  deriving DecidableEq, Repr

/-- State-transition core of sell_tokens (sell_tokens.rs lines 84-292), in
source order.  user_token_balance and sol_vault_lamports stand for the
corresponding account balances. -/
def sell_tokens_step (g : Global) (bc : BondingCurve) (uv : UserVolumeAccumulator)
    (user_token_balance sol_vault_lamports token_amount min_sol_received : Nat)
    (now : Int) : Except BcError SellOutcome := do
  if g.is_paused then throw BcError.AccountConstraintViolated
  if bc.is_migrated then throw BcError.AccountConstraintViolated
  if min_sol_received = 0 then throw BcError.InvalidSolAmount
  validate_trade_amounts bc token_amount false
  if user_token_balance < token_amount then throw BcError.InsufficientTokenReserves
  let sol_received ← calculate_sell_proceeds token_amount bc.virtual_sol_reserves
    bc.virtual_token_reserves bc.real_sol_reserves bc.real_token_reserves
  if sol_received < min_sol_received then throw BcError.SlippageExceeded
  let platform_fee ← cMulDiv64 sol_received g.platform_fee_basis_points 10000 BcError.Overflow
  let creator_fee ← cMulDiv64 sol_received g.creator_fee_basis_points 10000 BcError.Overflow
  let net1 ← cSub sol_received platform_fee BcError.Underflow
  let net_sol_received ← cSub net1 creator_fee BcError.Underflow
  if sol_vault_lamports < sol_received then throw BcError.InsufficientSolReserves
  if net_sol_received = 0 then throw BcError.ZeroAmountTransfer
  let rs2 ← cSub bc.real_sol_reserves sol_received BcError.Underflow
  let rt2 ← cAdd64 bc.real_token_reserves token_amount BcError.Overflow
  let tvs2 ← cAdd64 bc.total_volume_sol sol_received BcError.Overflow
  let tvt2 ← cAdd64 bc.total_volume_tokens token_amount BcError.Overflow
  let pfc2 ← cAdd64 bc.platform_fees_collected platform_fee BcError.Overflow
  let cfc2 ← cAdd64 bc.creator_fees_collected creator_fee BcError.Overflow
  let scount2 ← cAdd32 bc.sell_count 1 BcError.Overflow
  let gvol2 ← cAdd64 g.total_volume_sol sol_received BcError.Overflow
  let gfee2 ← cAdd64 g.total_fees_collected platform_fee BcError.Overflow
  let uvs2 ← cAdd64 uv.volume_sol sol_received BcError.Overflow
  let uvt2 ← cAdd64 uv.volume_tokens token_amount BcError.Overflow
  let utc2 ← cAdd32 uv.trades_count 1 BcError.Overflow
  let bc1 : BondingCurve :=
    { bc with
      real_sol_reserves := rs2
      real_token_reserves := rt2
      total_volume_sol := tvs2
      total_volume_tokens := tvt2
      platform_fees_collected := pfc2
      creator_fees_collected := cfc2
      sell_count := scount2
      last_trade_at := now }
  let g1 : Global := { g with total_volume_sol := gvol2, total_fees_collected := gfee2 }
  let uv1 : UserVolumeAccumulator :=
    { uv with
      volume_sol := uvs2
      volume_tokens := uvt2
      trades_count := utc2
      last_trade_timestamp := now }
  let _ ← current_price bc1
  return ⟨g1, bc1, uv1, sol_received, net_sol_received, platform_fee, creator_fee⟩

/-- Result of a successful migration: updated accounts plus the amounts moved
(migration fee to the platform wallet, remaining SOL and the LP reserve tokens
to the AMM vaults). -/
structure MigrateOutcome where
  global : Global
  curve : BondingCurve
  migration_fee : Nat
  sol_to_transfer : Nat
  tokens_transferred : Nat
  deriving DecidableEq, Repr

/-- State-transition core of migrate_to_amm (migrate_to_amm.rs lines 87-228)
together with its account constraints (migrate_to_amm.rs lines 6-18):
migration enabled, not paused, threshold met, not already migrated, then the
two-key authorization check, the fee computation, and the ledger updates.
lp_reserve_amount stands for the LP reserve token account balance. -/
def migrate_to_amm_step (g : Global) (bc : BondingCurve)
    (admin_key multisig_key lp_reserve_amount amm_program_key amm_pool_key : Nat) :
    Except BcError MigrateOutcome := do
  if g.migration_enabled = false then throw BcError.AccountConstraintViolated
  if g.is_paused then throw BcError.AccountConstraintViolated
  if is_migration_threshold_met bc = false then throw BcError.AccountConstraintViolated
  if bc.is_migrated then throw BcError.AccountConstraintViolated
  if admin_key ≠ g.admin_authority then throw BcError.InvalidAdminAuthority
  if multisig_key ≠ g.multisig_authority then throw BcError.InvalidMultisigAuthority
  let migration_fee ←
    cMulDiv64 bc.real_sol_reserves g.migration_fee_basis_points 10000 BcError.Overflow
  let sol_to_transfer ← cSub bc.real_sol_reserves migration_fee BcError.Underflow
  let bc1 : BondingCurve :=
    { bc with
      amm_program_id := some amm_program_key
      amm_pool_address := some amm_pool_key
      is_migrated := true }
  let sm2 ← cAdd32 g.successful_migrations 1 BcError.Overflow
  let gfee2 ← cAdd64 g.total_fees_collected migration_fee BcError.Overflow
  let g1 : Global := { g with successful_migrations := sm2, total_fees_collected := gfee2 }
  return ⟨g1, bc1, migration_fee, sol_to_transfer, lp_reserve_amount⟩

/-! ## AMM fixed-point math (amm/src/math.rs, amm/src/constants.rs) -/

/-- MIN_TICK from amm/src/constants.rs. -/
def MIN_TICK : Int := -443636

/-- MAX_TICK from amm/src/constants.rs. -/
def MAX_TICK : Int := 443636

/-- MIN_SQRT_PRICE_X64 from amm/src/constants.rs. -/
def MIN_SQRT_PRICE_X64 : Nat := 4295048016

/-- MAX_SQRT_PRICE_X64 from amm/src/constants.rs. -/
def MAX_SQRT_PRICE_X64 : Nat := 79226673515401279992447579055

/-- Q64 from amm/src/constants.rs. -/
def Q64 : Nat := 18446744073709551616

/-- One conditional multiplication step of tick_to_sqrt_price_x64:
the Rust source computes (r * c) then shifts right by 64 with a plain
(unchecked) u128 multiplication, which wraps modulo 2 to the 128 in release
builds and panics in debug builds; the wrap is modelled explicitly. -/
def mulShift64 (r c : Nat) : Nat := (r * c) % U128_MOD >>> 64

/-- The bit-mask / magic-constant table of tick_to_sqrt_price_x64
(math.rs lines 24-80), in source order (the bit-0 constant is the separate
initial value). -/
def tickMagicTable : List (Nat × Nat) :=
  [(0x2, 0xfff97272373d413259a46990580e213a),
   (0x4, 0xfff2e50f5f656932ef12357cf3c7fdcc),
   (0x8, 0xffe5caca7e10e4e61c3624eaa0941cd0),
   (0x10, 0xffcb9843d60f6159c9db58835c926644),
   (0x20, 0xff973b41fa98c081472e6896dfb254c0),
   (0x40, 0xff2ea16466c96a3843ec78b326b52861),
   (0x80, 0xfe5dee046a99a2a811c461f1969c3053),
   (0x100, 0xfcbe86c7900a88aedcffc83b479aa3a4),
   (0x200, 0xf987a7253ac413176f2b074cf7815e54),
   (0x400, 0xf3392b0822b70005940c7a398e4b70f3),
   (0x800, 0xe7159475a2c29b7443b29c7fa6e889d9),
   (0x1000, 0xd097f3bdfd2022b8845ad8f792aa5825),
   (0x2000, 0xa9f746462d870fdf8a65dc1f90e061e5),
   (0x4000, 0x70d869a156d2a1b890bb3df62baf32f7),
   (0x8000, 0x31be135f97d08fd981231505542fcfa6),
   (0x10000, 0x9aa508b5b7a84e1c677de54f3e99bc9),
   (0x20000, 0x5d6af8dedb81196699c329225ee604),
   (0x40000, 0x2216e584f5fa1ea926041bedfe98),
   (0x80000, 0x48a170391f7dc42444e8fa2)]

/-- The initial value of the accumulator in tick_to_sqrt_price_x64
(math.rs lines 18-22): the bit-0 magic constant when bit 0 of the absolute
tick is set, otherwise 1 shifted left by 96. -/
def tickRatioInit (absTick : Nat) : Nat :=
  if absTick &&& 0x1 ≠ 0 then 0xfffcb933bd6fad37aa2d162d1a594001
  else 79228162514264337593543950336

/-- The accumulator of tick_to_sqrt_price_x64 after all nineteen conditional
multiplication steps (math.rs lines 24-80), with release-build (wrapping)
semantics for each unchecked multiplication. -/
def tickRatioAfterSteps (absTick : Nat) : Nat :=
  tickMagicTable.foldl
    (fun r p => if absTick &&& p.1 ≠ 0 then mulShift64 r p.2 else r)
    (tickRatioInit absTick)

/-- MathUtil tick_to_sqrt_price_x64 (math.rs lines 9-94) with release-build
semantics for the unchecked multiplications.  The division u128max / r in the
source panics when r is zero (Lean natural division yields zero there); none
of the theorems below evaluate the function at such a point. -/
def tick_to_sqrt_price_x64 (tick : Int) : Except AmmError Nat :=
  if tick < MIN_TICK ∨ MAX_TICK < tick then Except.error AmmError.TickOutOfBounds
  else
    let r0 := tickRatioAfterSteps tick.natAbs
    let r1 := if 0 < tick then U128_MAX / r0 else r0
    Except.ok (if r1 % 4294967296 = 0 then r1 >>> 32 else (r1 >>> 32) + 1)

/-- True when some unchecked multiplication inside tick_to_sqrt_price_x64
produces a product exceeding u128max at the given tick, so the release build
silently wraps and the debug build panics (instead of returning a typed
error). -/
def tickRatioStepsWrap (absTick : Nat) : Bool :=
  (tickMagicTable.foldl
    (fun st p =>
      if absTick &&& p.1 ≠ 0 then
        (mulShift64 st.1 p.2, st.2 || decide (U128_MAX < st.1 * p.2))
      else st)
    (tickRatioInit absTick, false)).2

/-- The domain check at the top of MathUtil sqrt_price_x64_to_tick
(math.rs lines 97-101).  The remainder of that Rust function computes the tick
with 64-bit floating-point logarithms; only the integer domain check, which
runs first, is embedded here. -/
def sqrt_price_x64_to_tick_domain (sqrt_price_x64 : Nat) : Except AmmError Unit :=
  if sqrt_price_x64 < MIN_SQRT_PRICE_X64 ∨ MAX_SQRT_PRICE_X64 < sqrt_price_x64 then
    Except.error AmmError.InvalidSqrtPrice
  else Except.ok ()

/-- MathUtil mul_div_rounding_up (math.rs lines 261-279). -/
def mul_div_rounding_up (a b denominator : Nat) : Except AmmError Nat := do
  let result ← cDiv (← cMul128 a b AmmError.Overflow) denominator AmmError.DivisionByZero
  let remainder ← cRem (← cMul128 a b AmmError.Overflow) denominator AmmError.DivisionByZero
  if 0 < remainder then return result + 1 else return result

/-- MathUtil div_rounding_up (math.rs lines 282-296). -/
def div_rounding_up (numerator denominator : Nat) : Except AmmError Nat := do
  let result ← cDiv numerator denominator AmmError.DivisionByZero
  let remainder ← cRem numerator denominator AmmError.DivisionByZero
  if 0 < remainder then return result + 1 else return result

/-! ## AMM tick arrays (amm/src/state.rs, initialize_tick_array.rs,
increase_liquidity.rs, decrease_liquidity.rs) -/

/-- Tick record (amm/src/state.rs lines 274-288).  The three reward-growth
slots are flattened into three fields. -/
structure Tick where
  liquidity_net : Int
  liquidity_gross : Nat
  fee_growth_outside_a_x64 : Nat
  fee_growth_outside_b_x64 : Nat
  reward_growth_outside_0 : Nat
  reward_growth_outside_1 : Nat
  reward_growth_outside_2 : Nat
  initialized : Bool
  deriving DecidableEq, Repr

/-- The all-zero Tick (the Rust Default). -/
def defaultTick : Tick := ⟨0, 0, 0, 0, 0, 0, 0, false⟩

/-- TickArray account (amm/src/state.rs lines 248-259); the ticks list always
has 88 entries. -/
structure TickArray where
  start_tick_index : Int
  ticks : List Tick
  initialized_tick_count : Nat
  pool_id : Nat
  deriving DecidableEq, Repr

/-- TickArray check_in_array (state.rs lines 269-272): the raw tick index is
compared against start_tick_index + 88, with no use of the tick spacing. -/
def check_in_array (ta : TickArray) (tick : Int) : Bool :=
  ta.start_tick_index ≤ tick && tick < ta.start_tick_index + 88

/-- TICK_ARRAY_SIZE from amm/src/constants.rs. -/
def TICK_ARRAY_SIZE : Int := 88

/-- initialize_tick_array (initialize_tick_array.rs lines 29-73): alignment
check of the start index against 88 times the pool tick spacing, bounds check,
then an array of 88 default ticks. -/
def initialize_tick_array (pool_tick_spacing : Nat) (start_tick_index : Int)
    (pool_id : Nat) : Except AmmError TickArray :=
  if start_tick_index % (TICK_ARRAY_SIZE * pool_tick_spacing) ≠ 0 then
    Except.error AmmError.InvalidTickArray
  else if start_tick_index < MIN_TICK ∨ MAX_TICK < start_tick_index then
    Except.error AmmError.TickOutOfBounds
  else
    Except.ok ⟨start_tick_index, List.replicate 88 defaultTick, 0, pool_id⟩

/-- update_ticks_for_liquidity_change (increase_liquidity.rs lines 228-265).
The Rust index is the i32 offset divided by the literal 1, cast with as usize:
a negative offset becomes a huge unsigned value and fails the bound check
against the array length, which the explicit 0 ≤ guard models.  The lower tick
gets liquidity_net plus delta, the upper tick liquidity_net minus delta; both
get liquidity_gross plus the absolute delta and initialized set to true. -/
def update_ticks_for_liquidity_change (tick_array_lower tick_array_upper : TickArray)
    (tick_lower tick_upper : Int) (liquidity_delta : Int) :
    Except AmmError (TickArray × TickArray) := do
  let lower_index := (tick_lower - tick_array_lower.start_tick_index) / 1
  let tal2 ←
    if 0 ≤ lower_index ∧ lower_index.toNat < tick_array_lower.ticks.length then do
      let t := tick_array_lower.ticks.getD lower_index.toNat defaultTick
      let net ← cAddI128 t.liquidity_net liquidity_delta AmmError.Overflow
      let gross ← cAdd128 t.liquidity_gross liquidity_delta.natAbs AmmError.Overflow
      pure { tick_array_lower with
        ticks := tick_array_lower.ticks.set lower_index.toNat
          { t with
            liquidity_net := net
            liquidity_gross := gross
            initialized := true } }
    else pure tick_array_lower
  let upper_index := (tick_upper - tick_array_upper.start_tick_index) / 1
  let tau2 ←
    if 0 ≤ upper_index ∧ upper_index.toNat < tick_array_upper.ticks.length then do
      let t := tick_array_upper.ticks.getD upper_index.toNat defaultTick
      let net ← cSubI128 t.liquidity_net liquidity_delta AmmError.Underflow
      let gross ← cAdd128 t.liquidity_gross liquidity_delta.natAbs AmmError.Overflow
      pure { tick_array_upper with
        ticks := tick_array_upper.ticks.set upper_index.toNat
          { t with
            liquidity_net := net
            liquidity_gross := gross
            initialized := true } }
    else pure tick_array_upper
  return (tal2, tau2)

/-- update_ticks_for_liquidity_decrease (decrease_liquidity.rs lines 241-285).
The unsigned delta is cast to i128 for the net updates (lower subtracts, upper
adds) and subtracted from liquidity_gross with checked_sub; a tick whose gross
reaches zero has initialized reset to false, otherwise initialized is left
unchanged. -/
def update_ticks_for_liquidity_decrease (tick_array_lower tick_array_upper : TickArray)
    (tick_lower tick_upper : Int) (liquidity_delta : Nat) :
    Except AmmError (TickArray × TickArray) := do
  let lower_index := (tick_lower - tick_array_lower.start_tick_index) / 1
  let tal2 ←
    if 0 ≤ lower_index ∧ lower_index.toNat < tick_array_lower.ticks.length then do
      let t := tick_array_lower.ticks.getD lower_index.toNat defaultTick
      let net ← cSubI128 t.liquidity_net (u128_as_i128 liquidity_delta) AmmError.Underflow
      let gross ← cSub t.liquidity_gross liquidity_delta AmmError.Underflow
      pure { tick_array_lower with
        ticks := tick_array_lower.ticks.set lower_index.toNat
          { t with
            liquidity_net := net
            liquidity_gross := gross
            initialized := if gross = 0 then false else t.initialized } }
    else pure tick_array_lower
  let upper_index := (tick_upper - tick_array_upper.start_tick_index) / 1
  let tau2 ←
    if 0 ≤ upper_index ∧ upper_index.toNat < tick_array_upper.ticks.length then do
      let t := tick_array_upper.ticks.getD upper_index.toNat defaultTick
      let net ← cAddI128 t.liquidity_net (u128_as_i128 liquidity_delta) AmmError.Overflow
      let gross ← cSub t.liquidity_gross liquidity_delta AmmError.Underflow
      pure { tick_array_upper with
        ticks := tick_array_upper.ticks.set upper_index.toNat
          { t with
            liquidity_net := net
            liquidity_gross := gross
            initialized := if gross = 0 then false else t.initialized } }
    else pure tick_array_upper
  return (tal2, tau2)

/-- A Tick satisfies the spec invariant when its initialized flag is false
exactly when its gross liquidity is zero. -/
def TickInvariant (t : Tick) : Prop := t.initialized = false ↔ t.liquidity_gross = 0

instance (t : Tick) : Decidable (TickInvariant t) := by
  unfold TickInvariant
  infer_instance

/-- Every tick of the array satisfies the invariant. -/
def ArrayInvariant (ta : TickArray) : Prop := ∀ t ∈ ta.ticks, TickInvariant t

instance (ta : TickArray) : Decidable (ArrayInvariant ta) :=
  List.decidableBAll _ _

/-! ## AMM swap fee computation (amm/src/instructions/swap.rs lines 156-179,
amm/src/constants.rs) -/

/-- FEE_RATE_DENOMINATOR_VALUE from amm/src/constants.rs. -/
def FEE_RATE_DENOMINATOR_VALUE : Nat := 1000000

/-- PLATFORM_FEE_BASIS_POINTS from amm/src/constants.rs. -/
def PLATFORM_FEE_BASIS_POINTS : Nat := 300

/-- CREATOR_FEE_BASIS_POINTS from amm/src/constants.rs. -/
def CREATOR_FEE_BASIS_POINTS : Nat := 100

/-- BASIS_POINTS_DENOMINATOR from amm/src/constants.rs. -/
def BASIS_POINTS_DENOMINATOR : Nat := 10000

/-- The five fee quantities computed by swap (swap.rs lines 156-179). -/
structure SwapFees where
  trade_fee : Nat
  protocol_fee : Nat
  platform_fee : Nat
  creator_fee : Nat
  net_amount_in : Nat
  deriving DecidableEq, Repr

/-- The fee-splitting block of swap (swap.rs lines 156-179): trade fee from the
gross input and the pool trade fee rate; protocol fee as a protocol_fee_rate
share of the trade fee; platform and creator fees as basis-point shares of the
trade fee; net input equal to the gross input minus the trade fee alone. -/
def swap_fee_split (amount_in trade_fee_rate protocol_fee_rate : Nat) :
    Except AmmError SwapFees := do
  let trade_fee ← cMulDiv64 amount_in trade_fee_rate FEE_RATE_DENOMINATOR_VALUE
    AmmError.Overflow
  let protocol_fee ← cMulDiv64 trade_fee protocol_fee_rate FEE_RATE_DENOMINATOR_VALUE
    AmmError.Overflow
  let platform_fee ← cMulDiv64 trade_fee PLATFORM_FEE_BASIS_POINTS BASIS_POINTS_DENOMINATOR
    AmmError.Overflow
  let creator_fee ← cMulDiv64 trade_fee CREATOR_FEE_BASIS_POINTS BASIS_POINTS_DENOMINATOR
    AmmError.Overflow
  let net_amount_in ← cSub amount_in trade_fee AmmError.Underflow
  return ⟨trade_fee, protocol_fee, platform_fee, creator_fee, net_amount_in⟩

/-! ## Concrete fixtures used by the witnesses and counterexamples below -/

/-- Value of a successful Except computation, with a fallback for the error
case (used only to name concrete computation results in closed statements). -/
def exceptValue {e a : Type} (x : Except e a) (dflt : a) : a :=
  match x with
  | Except.ok v => v
  | Except.error _ => dflt

/-- A live Global configuration: migration enabled, not paused, the default
fee schedule (300 / 100 / 500 basis points). -/
def gFix : Global := ⟨1, 2, 3, 4, 300, 100, 500, 1000, true, false, 0, 0, 0, 0⟩

/-- A small live bonding curve: virtual reserves 10 and 1000, real reserves
0 and 100, not migrated. -/
def bcFix : BondingCurve :=
  ⟨11, 12, "TKN", "TKN", 10, 1000, 0, 100, 0, 1000000, false, false, none, none,
   0, 0, 0, 0, 0, 0, 0, 0⟩

/-- An empty user volume accumulator. -/
def uvFix : UserVolumeAccumulator := ⟨21, 0, 0, 0, 0⟩

/-- The same curve after migration has been flagged. -/
def bcMigratedFix : BondingCurve := { bcFix with is_migrated := true }

/-- A curve that has met its migration threshold and is not yet migrated. -/
def bcReadyFix : BondingCurve :=
  { bcFix with
    real_sol_reserves := 2000000
    migration_threshold := 1000000 }

/-- The outcome of the successful zero-cost buy on bcFix. -/
def buyZeroOut : BuyOutcome :=
  exceptValue (buy_tokens_step gFix bcFix uvFix 1000 1 1 0) ⟨gFix, bcFix, uvFix, 0, 0, 0, 0⟩

/-- The outcome of a successful migration of bcReadyFix. -/
def migOutFix : MigrateOutcome :=
  exceptValue (migrate_to_amm_step gFix bcReadyFix 1 2 700 8 9) ⟨gFix, bcReadyFix, 0, 0, 0⟩

/-- The 88-slot tick array with start index 0 produced by
initialize_tick_array at tick spacing 10. -/
def ta88Fix : TickArray :=
  exceptValue (initialize_tick_array 10 0 77) ⟨0, [], 0, 77⟩

/-- Result of a liquidity increase of 5 at ticks 50 and 60 on two copies of
ta88Fix. -/
def updChangeFix : TickArray × TickArray :=
  exceptValue (update_ticks_for_liquidity_change ta88Fix ta88Fix 50 60 5) (ta88Fix, ta88Fix)

/-- Result of the matching liquidity decrease of 5 at ticks 50 and 60. -/
def updDecreaseFix : TickArray × TickArray :=
  exceptValue (update_ticks_for_liquidity_decrease updChangeFix.1 updChangeFix.2 50 60 5)
    (updChangeFix.1, updChangeFix.2)

/-- The fee split of a swap of 400000 at trade fee rate 10000 and protocol fee
rate 50000. -/
def swapFeesFix : SwapFees :=
  exceptValue (swap_fee_split 400000 10000 50000) ⟨0, 0, 0, 0, 0⟩

/-! ## Inversion lemmas for the pricing functions -/

/-- Successful calculate_buy_cost runs are exactly characterised by the checks
passing and the cost being the floored constant-product quotient minus the
current effective SOL reserves. -/
theorem calculate_buy_cost_ok {a vs vt rs rt c : Nat}
    (h : calculate_buy_cost a vs vt rs rt = Except.ok c) :
    0 < vs ∧ 0 < a ∧ a ≤ rt ∧ rt ≤ vt ∧ a ≤ vt - rt ∧
    (vs + rs) * (vt - rt) ≤ U64_MAX ∧ vt - rt - a ≠ 0 ∧
    vs + rs ≤ (vs + rs) * (vt - rt) / (vt - rt - a) ∧
    c = (vs + rs) * (vt - rt) / (vt - rt - a) - (vs + rs) := by
  simp only [calculate_buy_cost, cAdd64, cSub, cMul64, cDiv, bind, Except.bind, pure,
    Except.pure] at h
  split_ifs at h with h1 h2 h3 h4 h5 h6 <;> try exact Except.noConfusion h
  repeat' split at h
  all_goals try exact Except.noConfusion h
  rename_i x1 w1 e1 x2 w2 e2 x3 w3 e3 x4 w4 e4 x5 w5 e5 x6 w6 e6
  injection e1 with e1
  injection e2 with e2
  subst e1; subst e2
  split_ifs at e3 e4 e5 e6 with g1 g2 g3 g4
  injection e3 with e3
  injection e4 with e4
  injection e5 with e5
  injection e6 with e6
  injection h with h
  subst e3; subst e4; subst e5; subst e6; subst h
  refine ⟨by omega, by omega, by omega, h6, g1, g2, g3, g4, rfl⟩

/-- Successful calculate_sell_proceeds runs are exactly characterised by the
checks passing and the proceeds being the current effective SOL reserves minus
the floored constant-product quotient. -/
theorem calculate_sell_proceeds_ok {a vs vt rs rt p : Nat}
    (h : calculate_sell_proceeds a vs vt rs rt = Except.ok p) :
    0 < vs ∧ 0 < a ∧ 0 < rs ∧ vs + rs ≤ U64_MAX ∧ rt ≤ vt ∧
    vt - rt + a ≤ U64_MAX ∧ (vs + rs) * (vt - rt) ≤ U64_MAX ∧
    (vs + rs) * (vt - rt) / (vt - rt + a) ≤ vs + rs ∧
    p = (vs + rs) - (vs + rs) * (vt - rt) / (vt - rt + a) := by
  simp only [calculate_sell_proceeds, cAdd64, cSub, cMul64, cDiv, bind, Except.bind, pure,
    Except.pure] at h
  split_ifs at h with h1 h2 h3 h4 h5 h6 <;> try exact Except.noConfusion h
  repeat' split at h
  all_goals try exact Except.noConfusion h
  rename_i x1 w1 e1 x2 w2 e2 x3 w3 e3 x4 w4 e4 x5 w5 e5 x6 w6 e6
  injection e1 with e1
  injection e2 with e2
  subst e1; subst e2
  split_ifs at e3 e4 e5 e6 with g1 g2 g3 g4
  injection e3 with e3
  injection e4 with e4
  injection e5 with e5
  injection e6 with e6
  injection h with h
  subst e3; subst e4; subst e5; subst e6; subst h
  refine ⟨by omega, by omega, by omega, h5, h6, g1, g2, g4, rfl⟩

/-- Arithmetic core of the round-trip bound: the floored quotient of the
constant product taken at the post-buy state is at least the pre-buy effective
SOL reserves minus one. -/
theorem roundtrip_div_bound (S T A : Nat) (hS : 0 < S) (hA : 0 < A) (hAT : A ≤ T)
    (hTA : T - A ≠ 0) (hSQ : S ≤ S * T / (T - A)) :
    (S - 1) * (T + 2 * A) ≤ S * T / (T - A) * (T + A) := by
  have hpos : 0 < T - A := Nat.pos_of_ne_zero hTA
  obtain ⟨D, hD, hDpos⟩ : ∃ D, T = A + D ∧ 0 < D := ⟨T - A, by omega, hpos⟩
  obtain ⟨S1, hS1⟩ : ∃ S1, S = S1 + 1 := ⟨S - 1, by omega⟩
  set Q := S * T / (T - A) with hQ
  set r := S * T % (T - A) with hr
  have hdm : S * T = (T - A) * Q + r := (Nat.div_add_mod (S * T) (T - A)).symm
  have hmlt : r < T - A := Nat.mod_lt _ hpos
  have hmul : (S1 + 1) * A ≤ Q * A := Nat.mul_le_mul_right A (hS1 ▸ hSQ)
  subst hD hS1
  have hTA2 : A + D - A = D := by omega
  rw [hTA2] at hdm hmlt
  have h2 : S1 * A + A ≤ Q * A := by rw [add_mul, one_mul] at hmul; exact hmul
  simp only [Nat.add_sub_cancel]
  have pad : S1 * (A + D + 2 * A) + (A + D) ≤ Q * (A + D + A) + (A + D) := by
    ring_nf
    ring_nf at hdm h2
    linarith [hmlt]
  exact Nat.le_of_add_le_add_right pad

/-! ## Claim theorems -/

/-- C1: the claim states that every arithmetic step of the math library is
checked and that in particular the repeated products of the accumulator with
the magic constants inside tick_to_sqrt_price_x64 never wrap for any tick in
the valid range.  The code violates this: already at tick 2 (and at the
extreme tick 443636) an unchecked u128 multiplication exceeds u128max, so the
release build wraps silently and the debug build panics, with no typed error.
This theorem evaluates the embedded computation at those failing inputs. -/
theorem tick_unchecked_mul_wraps :
    tickRatioStepsWrap 2 = true ∧ tickRatioStepsWrap 3 = true ∧
    tickRatioStepsWrap 443636 = true ∧
    tickRatioStepsWrap 0 = false ∧ tickRatioStepsWrap 1 = false ∧
    (2 : Int) ≤ MAX_TICK :=
  ⟨rfl, rfl, rfl, rfl, rfl, by decide⟩

/-- C2: the claim states that for the concrete scenario with virtual SOL
30000000000, virtual tokens 1000000000000000 and real SOL 0, a buy of
1000000000 tokens succeeds with positive cost and preserves the constant
product.  The code cannot perform this trade for any real token reserve:
the constant product k is computed with u64 checked multiplication and
overflows whenever the trade is otherwise permitted, so calculate_buy_cost
always returns a typed error (Overflow at the stated reserve of 1000000000). -/
theorem buy_scenario_always_fails (rt : Nat) :
    calculate_buy_cost 1000000000 30000000000 1000000000000000 0 1000000000
      = Except.error BcError.Overflow ∧
    isOkE (calculate_buy_cost 1000000000 30000000000 1000000000000000 0 rt) = false := by
  refine ⟨rfl, ?_⟩
  simp only [calculate_buy_cost, cAdd64, cSub, cMul64, cDiv, U64_MAX, isOkE,
    bind, Except.bind, pure, Except.pure]
  norm_num
  split_ifs <;> simp_all
  by_cases h3 : 1000000000 ≤ 1000000000000000 - rt
  · rw [if_pos h3]
    have h5 : 30000000000 * 1000000000 ≤ 30000000000 * (1000000000000000 - rt) :=
      Nat.mul_le_mul_left _ h3
    rw [if_neg (by omega)]
  · rw [if_neg h3]

/-- C3: the claim states that for every tick in the valid range the
composition of the two conversions returns a tick within one of the original.
The code violates this already at tick 1, where no wrapping is even involved:
tick_to_sqrt_price_x64 1 returns 1 (the accumulator starts at 2 to the 96
while the magic constants are scaled to 2 to the 128, so the positive-tick
inversion collapses), and 1 is below MIN_SQRT_PRICE_X64, so
sqrt_price_x64_to_tick rejects it with InvalidSqrtPrice instead of returning
a tick near 1. -/
theorem tick_one_roundtrip_fails :
    tick_to_sqrt_price_x64 1 = Except.ok 1 ∧
    (1 : Nat) < MIN_SQRT_PRICE_X64 ∧
    sqrt_price_x64_to_tick_domain 1 = Except.error AmmError.InvalidSqrtPrice :=
  ⟨rfl, by decide, rfl⟩

/-- C4 counterexample: the claim states that an immediate sell-back of a just
bought amount never pays more than the buy cost, for all fee settings
including zero fees.  At virtual reserves 1 and 5, real reserves 1 and 1, and
amount 1, the buy costs 0 while the sell at the post-buy reserves pays 1, so
the round trip profits one lamport at zero fees. -/
theorem roundtrip_profit_counterexample :
    calculate_buy_cost 1 1 5 1 1 = Except.ok 0 ∧
    calculate_sell_proceeds 1 1 5 (1 + 0) (1 - 1) = Except.ok 1 ∧
    ¬ ((1 : Nat) ≤ 0) :=
  ⟨rfl, rfl, by decide⟩

/-- C4 (amended): whenever a buy of some amount succeeds with cost c and the
same amount is immediately sold back against the post-buy reserves with
proceeds p, then p is at most c + 1: a round trip can profit at most one
lamport (from the two floored divisions), not more. -/
theorem sell_after_buy_le_cost_succ (a vs vt rs rt c p : Nat)
    (hb : calculate_buy_cost a vs vt rs rt = Except.ok c)
    (hs : calculate_sell_proceeds a vs vt (rs + c) (rt - a) = Except.ok p) :
    p ≤ c + 1 := by
  obtain ⟨hvs, ha, har, hrv, hacvt, hk, hnz, hsq, hc⟩ := calculate_buy_cost_ok hb
  obtain ⟨u1, u2, u3, u4, u5, u6, u7, hq2, hp⟩ := calculate_sell_proceeds_ok hs
  have hS : vs + (rs + c) = (vs + rs) + c := by omega
  have hT : vt - (rt - a) = (vt - rt) + a := by omega
  rw [hS, hT] at hp
  have hQ : (vs + rs) + c = (vs + rs) * (vt - rt) / (vt - rt - a) := by omega
  rw [hQ] at hp
  have he : (vt - rt) + a + a = (vt - rt) + 2 * a := by ring
  rw [he] at hp
  have key := roundtrip_div_bound (vs + rs) (vt - rt) a (by omega) ha (by omega) hnz hsq
  have hN : (vs + rs) - 1 ≤
      (vs + rs) * (vt - rt) / (vt - rt - a) * ((vt - rt) + a) / ((vt - rt) + 2 * a) := by
    rw [Nat.le_div_iff_mul_le (by omega)]
    exact key
  set Q := (vs + rs) * (vt - rt) / (vt - rt - a) with hQdef
  set N := Q * ((vt - rt) + a) / ((vt - rt) + 2 * a) with hNdef
  omega

/-- Witness for sell_after_buy_le_cost_succ at the counterexample state:
buy cost 0, sell proceeds 1, and 1 is at most 0 + 1. -/
theorem sell_after_buy_le_cost_succ_witness : (1 : Nat) ≤ 0 + 1 :=
  sell_after_buy_le_cost_succ 1 1 5 1 1 0 1 rfl rfl

/-- C9: there exist reserve states and a positive token amount within the real
token reserves for which calculate_buy_cost returns exactly zero by truncating
division, and buy_tokens accepts the trade (it only requires a positive
max_sol_cost), transferring the tokens for zero curve cost.  Witnessed by the
concrete curve bcFix with a buy of one token. -/
theorem zero_cost_buy_accepted :
    calculate_buy_cost 1 bcFix.virtual_sol_reserves bcFix.virtual_token_reserves
      bcFix.real_sol_reserves bcFix.real_token_reserves = Except.ok 0 ∧
    (0 : Nat) < 1 ∧ 1 ≤ bcFix.real_token_reserves ∧
    buy_tokens_step gFix bcFix uvFix 1000 1 1 0 = Except.ok buyZeroOut ∧
    buyZeroOut.sol_cost = 0 ∧
    buyZeroOut.tokens_out = 1 ∧
    buyZeroOut.curve.real_token_reserves + 1 = bcFix.real_token_reserves ∧
    buyZeroOut.curve.real_sol_reserves = bcFix.real_sol_reserves :=
  ⟨rfl, by decide, by decide, rfl, rfl, rfl, rfl, rfl⟩

/-- C5 counterexample: the claim states that the platform and creator fees of
swap are flat basis-point fractions of the gross input amount.  At gross input
1000000 with trade fee rate 2500, the code computes platform fee 75, which is
300 basis points of the trade fee 2500, not of the gross input (that would be
30000). -/
theorem swap_platform_fee_counterexample :
    swap_fee_split 1000000 2500 120 = Except.ok ⟨2500, 0, 75, 25, 997500⟩ ∧
    ¬ ((75 : Nat) = 1000000 * PLATFORM_FEE_BASIS_POINTS / BASIS_POINTS_DENOMINATOR) :=
  ⟨rfl, by decide⟩

/-- C5 (amended): in swap the gross trade fee is amount_in times
trade_fee_rate over 1000000; the protocol fee is the protocol_fee_rate share
of that trade fee (over 1000000); the platform and creator fees are flat
basis-point fractions of the trade fee (over 10000), not of the gross input;
and only the trade fee is subtracted from the input before the net amount is
credited to the pool vault (the protocol, platform and creator fees are then
paid out of the vault). -/
theorem swap_fee_split_spec (amount_in trade_fee_rate protocol_fee_rate : Nat)
    (f : SwapFees)
    (h : swap_fee_split amount_in trade_fee_rate protocol_fee_rate = Except.ok f) :
    f.trade_fee = amount_in * trade_fee_rate / FEE_RATE_DENOMINATOR_VALUE ∧
    f.protocol_fee = f.trade_fee * protocol_fee_rate / FEE_RATE_DENOMINATOR_VALUE ∧
    f.platform_fee = f.trade_fee * PLATFORM_FEE_BASIS_POINTS / BASIS_POINTS_DENOMINATOR ∧
    f.creator_fee = f.trade_fee * CREATOR_FEE_BASIS_POINTS / BASIS_POINTS_DENOMINATOR ∧
    f.trade_fee ≤ amount_in ∧
    f.net_amount_in + f.trade_fee = amount_in := by
  simp only [swap_fee_split, cMulDiv64, cSub, bind, Except.bind, pure, Except.pure] at h
  split_ifs at h with h1 <;> try exact Except.noConfusion h
  repeat' split at h
  all_goals try exact Except.noConfusion h
  rename_i x1 w1 e1 x2 w2 e2 x3 w3 e3 x4 w4 e4 x5 w5 e5
  injection e1 with e1
  subst e1
  split_ifs at e2 e3 e4 e5 with g2 g3 g4 g5
  injection e2 with e2
  injection e3 with e3
  injection e4 with e4
  injection e5 with e5
  injection h with h
  subst e2; subst e3; subst e4; subst e5; subst h
  refine ⟨rfl, rfl, rfl, rfl, g5, ?_⟩
  dsimp only
  omega

/-- Witness for swap_fee_split_spec at gross input 400000, trade fee rate
10000 and protocol fee rate 50000. -/
theorem swap_fee_split_spec_witness :
    swapFeesFix.trade_fee = 400000 * 10000 / FEE_RATE_DENOMINATOR_VALUE ∧
    swapFeesFix.protocol_fee
      = swapFeesFix.trade_fee * 50000 / FEE_RATE_DENOMINATOR_VALUE ∧
    swapFeesFix.platform_fee
      = swapFeesFix.trade_fee * PLATFORM_FEE_BASIS_POINTS / BASIS_POINTS_DENOMINATOR ∧
    swapFeesFix.creator_fee
      = swapFeesFix.trade_fee * CREATOR_FEE_BASIS_POINTS / BASIS_POINTS_DENOMINATOR ∧
    swapFeesFix.trade_fee ≤ 400000 ∧
    swapFeesFix.net_amount_in + swapFeesFix.trade_fee = 400000 :=
  swap_fee_split_spec 400000 10000 50000 swapFeesFix rfl

/-! ## Helper lemmas for the tick-array theorems -/

/-- The getD of an in-bounds index is a member of the list. -/
theorem getD_mem_of_lt {α : Type} (l : List α) (i : Nat) (d : α) (h : i < l.length) :
    l.getD i d ∈ l := by
  rw [List.getD_eq_getElem?_getD, List.getElem?_eq_getElem h]
  exact List.getElem_mem h


/-- A tick updated by a liquidity increase of a positive delta satisfies the
initialized-iff-nonzero-gross invariant. -/
theorem increase_tick_invariant (t : Tick) (net2 : Int) (g2 : Nat) (delta : Int)
    (hd : 0 < delta) (hg : g2 = t.liquidity_gross + delta.natAbs) :
    TickInvariant { t with
      liquidity_net := net2
      liquidity_gross := g2
      initialized := true } := by
  unfold TickInvariant
  dsimp only
  have : 0 < delta.natAbs := Int.natAbs_pos.mpr (ne_of_gt hd)
  constructor
  · intro hf
    exact absurd hf (by simp)
  · intro h0
    omega


/-- The conditional initialized reset of the decrease path, as a Boolean
expression (used to normalise the embedded definition in proofs). -/
theorem init_flag_eq (b : Bool) (g : Nat) :
    (if g = 0 then false else b) = (b && !(g == 0)) := by
  by_cases h : g = 0 <;> simp [h]


/-- A tick updated by a liquidity decrease preserves the
initialized-iff-nonzero-gross invariant. -/
theorem decrease_tick_invariant (t : Tick) (net2 : Int) (delta : Nat)
    (hinv : TickInvariant t) :
    TickInvariant { t with
      liquidity_net := net2
      liquidity_gross := t.liquidity_gross - delta
      initialized := t.initialized && !(t.liquidity_gross - delta == 0) } := by
  unfold TickInvariant at *
  dsimp only
  cases hb : t.initialized
  · have hz : t.liquidity_gross = 0 := hinv.mp hb
    simp [hz]
  · simp


/-- Invariant after tick-array initialization. -/
theorem c8part1 (spacing : Nat) (start : Int) (pid : Nat) (ta : TickArray)
    (h : initialize_tick_array spacing start pid = Except.ok ta) :
    ArrayInvariant ta := by
  simp only [initialize_tick_array] at h
  split_ifs at h <;> try exact Except.noConfusion h
  injection h with h
  subst h
  intro t ht
  have := List.eq_of_mem_replicate ht
  subst this
  decide


/-- Invariant preservation by update_ticks_for_liquidity_change for positive
deltas. -/
theorem c8part2
    (tal tau : TickArray) (tl tu d : Int) (tal2 tau2 : TickArray) (hd : 0 < d)
    (h : update_ticks_for_liquidity_change tal tau tl tu d = Except.ok (tal2, tau2))
    (h1 : ArrayInvariant tal) (h2 : ArrayInvariant tau) :
    ArrayInvariant tal2 ∧ ArrayInvariant tau2 := by
  simp only [update_ticks_for_liquidity_change, cAddI128, cSubI128, cAdd128, bind,
    Except.bind, pure, Except.pure, Int.ediv_one] at h
  repeat' split at h
  all_goals try exact Except.noConfusion h
  · rename_i hc1 x3 v3 e3 x2 v2 e2 hc2 x1 v1 e1 x0 v0 e0
    split_ifs at e3 e2 e1 e0
    injection e3 with e3; injection e2 with e2; injection e1 with e1; injection e0 with e0
    subst e3; subst e2; subst e1; subst e0
    injection h with h
    injection h with hA hB
    subst hA; subst hB
    constructor
    · intro t ht
      rcases List.mem_or_eq_of_mem_set ht with hm | he
      · exact h1 t hm
      · subst he
        exact increase_tick_invariant _ _ _ d hd rfl
    · intro t ht
      rcases List.mem_or_eq_of_mem_set ht with hm | he
      · exact h2 t hm
      · subst he
        exact increase_tick_invariant _ _ _ d hd rfl
  · rename_i hc1 x3 v3 e3 x2 v2 e2 hc2
    split_ifs at e3 e2
    injection e3 with e3; injection e2 with e2
    subst e3; subst e2
    injection h with h
    injection h with hA hB
    subst hA; subst hB
    refine ⟨?_, h2⟩
    intro t ht
    rcases List.mem_or_eq_of_mem_set ht with hm | he
    · exact h1 t hm
    · subst he
      exact increase_tick_invariant _ _ _ d hd rfl
  · rename_i hc1 hc2 x1 v1 e1 x0 v0 e0
    split_ifs at e1 e0
    injection e1 with e1; injection e0 with e0
    subst e1; subst e0
    injection h with h
    injection h with hA hB
    subst hA; subst hB
    refine ⟨h1, ?_⟩
    intro t ht
    rcases List.mem_or_eq_of_mem_set ht with hm | he
    · exact h2 t hm
    · subst he
      exact increase_tick_invariant _ _ _ d hd rfl
  · injection h with h
    injection h with hA hB
    subst hA; subst hB
    exact ⟨h1, h2⟩


/-- Invariant preservation by update_ticks_for_liquidity_decrease. -/
theorem c8part3
    (tal tau : TickArray) (tl tu : Int) (d : Nat) (tal2 tau2 : TickArray)
    (h : update_ticks_for_liquidity_decrease tal tau tl tu d = Except.ok (tal2, tau2))
    (h1 : ArrayInvariant tal) (h2 : ArrayInvariant tau) :
    ArrayInvariant tal2 ∧ ArrayInvariant tau2 := by
  simp only [update_ticks_for_liquidity_decrease, cAddI128, cSubI128, cSub, bind,
    Except.bind, pure, Except.pure, Int.ediv_one, init_flag_eq] at h
  repeat' split at h
  all_goals try exact Except.noConfusion h
  · rename_i hc1 x3 v3 e3 x2 v2 e2 hc2 x1 v1 e1 x0 v0 e0
    split_ifs at e3 e2 e1 e0 with p1 p2 p3 p4
    injection e3 with e3; injection e2 with e2; injection e1 with e1; injection e0 with e0
    subst e3; subst e2; subst e1; subst e0
    injection h with h
    injection h with hA hB
    subst hA; subst hB
    constructor
    · intro t ht
      rcases List.mem_or_eq_of_mem_set ht with hm | he
      · exact h1 t hm
      · subst he
        exact decrease_tick_invariant _ _ _ (h1 _ (getD_mem_of_lt _ _ _ hc1.2))
    · intro t ht
      rcases List.mem_or_eq_of_mem_set ht with hm | he
      · exact h2 t hm
      · subst he
        exact decrease_tick_invariant _ _ _ (h2 _ (getD_mem_of_lt _ _ _ hc2.2))
  · rename_i hc1 x3 v3 e3 x2 v2 e2 hc2
    split_ifs at e3 e2 with p1 p2
    injection e3 with e3; injection e2 with e2
    subst e3; subst e2
    injection h with h
    injection h with hA hB
    subst hA; subst hB
    refine ⟨?_, h2⟩
    intro t ht
    rcases List.mem_or_eq_of_mem_set ht with hm | he
    · exact h1 t hm
    · subst he
      exact decrease_tick_invariant _ _ _ (h1 _ (getD_mem_of_lt _ _ _ hc1.2))
  · rename_i hc1 hc2 x1 v1 e1 x0 v0 e0
    split_ifs at e1 e0 with p3 p4
    injection e1 with e1; injection e0 with e0
    subst e1; subst e0
    injection h with h
    injection h with hA hB
    subst hA; subst hB
    refine ⟨h1, ?_⟩
    intro t ht
    rcases List.mem_or_eq_of_mem_set ht with hm | he
    · exact h2 t hm
    · subst he
      exact decrease_tick_invariant _ _ _ (h2 _ (getD_mem_of_lt _ _ _ hc2.2))
  · injection h with h
    injection h with hA hB
    subst hA; subst hB
    exact ⟨h1, h2⟩


/-- C6 counterexample: the claim states the updated tick entry sits at index
(tick_index - start_tick_index) / tick_spacing and that in-array membership is
equivalent to that index lying in the range up to 88.  On a tick-spacing-10
pool array starting at 0, an update at tick 50 writes slot 50, not slot
(50 - 0) / 10 = 5, and tick 100 (whose spacing-index 10 is within range) is
reported out of array by check_in_array. -/
theorem tick_update_index_counterexample :
    initialize_tick_array 10 0 77 = Except.ok ta88Fix ∧
    update_ticks_for_liquidity_change ta88Fix ta88Fix 50 60 5 = Except.ok updChangeFix ∧
    ((50 - ta88Fix.start_tick_index) / 10 : Int) = 5 ∧
    (updChangeFix.1.ticks.getD 5 defaultTick).liquidity_gross = 0 ∧
    (updChangeFix.1.ticks.getD 5 defaultTick).initialized = false ∧
    (updChangeFix.1.ticks.getD 50 defaultTick).liquidity_gross = 5 ∧
    check_in_array ta88Fix 100 = false ∧
    (0 ≤ ((100 - ta88Fix.start_tick_index) / 10 : Int) ∧
      ((100 - ta88Fix.start_tick_index) / 10 : Int) < 88) :=
  ⟨rfl, rfl, by decide, rfl, rfl, rfl, rfl, by decide⟩

/-- Raw-offset addressing and frame behaviour of
update_ticks_for_liquidity_change when both ticks pass check_in_array. -/
theorem tick_change_raw_offset_aux
    (tal tau tal2 tau2 : TickArray) (tl tu d : Int)
    (h : update_ticks_for_liquidity_change tal tau tl tu d = Except.ok (tal2, tau2))
    (hl : check_in_array tal tl = true) (hu : check_in_array tau tu = true)
    (hlen : tal.ticks.length = 88) (hulen : tau.ticks.length = 88) :
    (tal2.ticks.getD (tl - tal.start_tick_index).toNat defaultTick).liquidity_gross
      = (tal.ticks.getD (tl - tal.start_tick_index).toNat defaultTick).liquidity_gross
        + d.natAbs ∧
    (tal2.ticks.getD (tl - tal.start_tick_index).toNat defaultTick).initialized = true ∧
    (∀ j, j ≠ (tl - tal.start_tick_index).toNat →
      tal2.ticks.getD j defaultTick = tal.ticks.getD j defaultTick) ∧
    (tau2.ticks.getD (tu - tau.start_tick_index).toNat defaultTick).liquidity_gross
      = (tau.ticks.getD (tu - tau.start_tick_index).toNat defaultTick).liquidity_gross
        + d.natAbs ∧
    (tau2.ticks.getD (tu - tau.start_tick_index).toNat defaultTick).initialized = true ∧
    (∀ j, j ≠ (tu - tau.start_tick_index).toNat →
      tau2.ticks.getD j defaultTick = tau.ticks.getD j defaultTick) := by
  simp only [update_ticks_for_liquidity_change, cAddI128, cSubI128, cAdd128, bind,
    Except.bind, pure, Except.pure, Int.ediv_one] at h
  simp only [check_in_array, Bool.and_eq_true, decide_eq_true_eq] at hl hu
  repeat' split at h
  all_goals try exact Except.noConfusion h
  all_goals try (exfalso; omega)
  rename_i hc1 x3 v3 e3 x2 v2 e2 hc2 x1 v1 e1 x0 v0 e0
  split_ifs at e3 e2 e1 e0
  injection e3 with e3
  injection e2 with e2
  injection e1 with e1
  injection e0 with e0
  subst e3; subst e2; subst e1; subst e0
  injection h with h
  injection h with hA hB
  subst hA; subst hB
  have hil : (tl - tal.start_tick_index).toNat < tal.ticks.length := hc1.2
  have hiu : (tu - tau.start_tick_index).toNat < tau.ticks.length := hc2.2
  refine ⟨?_, ?_, ?_, ?_, ?_, ?_⟩
  · rw [List.getD_eq_getElem?_getD, List.getElem?_set_self hil]
    rfl
  · rw [List.getD_eq_getElem?_getD, List.getElem?_set_self hil]
    rfl
  · intro j hj
    rw [List.getD_eq_getElem?_getD, List.getD_eq_getElem?_getD,
      List.getElem?_set_ne (by omega)]
    exact (List.getD_eq_getElem?_getD _ _ _).symm ▸ rfl
  · rw [List.getD_eq_getElem?_getD, List.getElem?_set_self hiu]
    rfl
  · rw [List.getD_eq_getElem?_getD, List.getElem?_set_self hiu]
    rfl
  · intro j hj
    rw [List.getD_eq_getElem?_getD, List.getD_eq_getElem?_getD,
      List.getElem?_set_ne (by omega)]
    exact (List.getD_eq_getElem?_getD _ _ _).symm ▸ rfl


/-- Raw-offset addressing and frame behaviour of
update_ticks_for_liquidity_decrease when both ticks pass check_in_array. -/
theorem tick_decrease_raw_offset_aux
    (tal tau tal2 tau2 : TickArray) (tl tu : Int) (d : Nat)
    (h : update_ticks_for_liquidity_decrease tal tau tl tu d = Except.ok (tal2, tau2))
    (hl : check_in_array tal tl = true) (hu : check_in_array tau tu = true)
    (hlen : tal.ticks.length = 88) (hulen : tau.ticks.length = 88) :
    (tal2.ticks.getD (tl - tal.start_tick_index).toNat defaultTick).liquidity_gross
      = (tal.ticks.getD (tl - tal.start_tick_index).toNat defaultTick).liquidity_gross
        - d ∧
    (tal2.ticks.getD (tl - tal.start_tick_index).toNat defaultTick).initialized
      = (if (tal.ticks.getD (tl - tal.start_tick_index).toNat defaultTick).liquidity_gross
            - d = 0 then false
         else (tal.ticks.getD (tl - tal.start_tick_index).toNat defaultTick).initialized) ∧
    (∀ j, j ≠ (tl - tal.start_tick_index).toNat →
      tal2.ticks.getD j defaultTick = tal.ticks.getD j defaultTick) ∧
    (tau2.ticks.getD (tu - tau.start_tick_index).toNat defaultTick).liquidity_gross
      = (tau.ticks.getD (tu - tau.start_tick_index).toNat defaultTick).liquidity_gross
        - d ∧
    (tau2.ticks.getD (tu - tau.start_tick_index).toNat defaultTick).initialized
      = (if (tau.ticks.getD (tu - tau.start_tick_index).toNat defaultTick).liquidity_gross
            - d = 0 then false
         else (tau.ticks.getD (tu - tau.start_tick_index).toNat defaultTick).initialized) ∧
    (∀ j, j ≠ (tu - tau.start_tick_index).toNat →
      tau2.ticks.getD j defaultTick = tau.ticks.getD j defaultTick) := by
  simp only [update_ticks_for_liquidity_decrease, cAddI128, cSubI128, cSub, bind,
    Except.bind, pure, Except.pure, Int.ediv_one, init_flag_eq] at h
  simp only [check_in_array, Bool.and_eq_true, decide_eq_true_eq] at hl hu
  repeat' split at h
  all_goals try exact Except.noConfusion h
  all_goals try (exfalso; omega)
  rename_i hc1 x3 v3 e3 x2 v2 e2 hc2 x1 v1 e1 x0 v0 e0
  split_ifs at e3 e2 e1 e0
  injection e3 with e3
  injection e2 with e2
  injection e1 with e1
  injection e0 with e0
  subst e3; subst e2; subst e1; subst e0
  injection h with h
  injection h with hA hB
  subst hA; subst hB
  have hil : (tl - tal.start_tick_index).toNat < tal.ticks.length := hc1.2
  have hiu : (tu - tau.start_tick_index).toNat < tau.ticks.length := hc2.2
  refine ⟨?_, ?_, ?_, ?_, ?_, ?_⟩
  · rw [List.getD_eq_getElem?_getD, List.getElem?_set_self hil]
    rfl
  · rw [List.getD_eq_getElem?_getD, List.getElem?_set_self hil]
    exact (init_flag_eq _ _).symm
  · intro j hj
    rw [List.getD_eq_getElem?_getD, List.getD_eq_getElem?_getD,
      List.getElem?_set_ne (by omega)]
    exact (List.getD_eq_getElem?_getD _ _ _).symm ▸ rfl
  · rw [List.getD_eq_getElem?_getD, List.getElem?_set_self hiu]
    rfl
  · rw [List.getD_eq_getElem?_getD, List.getElem?_set_self hiu]
    exact (init_flag_eq _ _).symm
  · intro j hj
    rw [List.getD_eq_getElem?_getD, List.getD_eq_getElem?_getD,
      List.getElem?_set_ne (by omega)]
    exact (List.getD_eq_getElem?_getD _ _ _).symm ▸ rfl

/-- C6 (amended): a tick is considered in-array exactly when the raw offset
tick_index - start_tick_index lies in the range up to 88 (the index division
is by the literal one; tick_spacing is not used), and for every liquidity
increase (update_ticks_for_liquidity_change) and every liquidity decrease
(update_ticks_for_liquidity_decrease) the tick entry updated inside the
88-slot array is the one at that raw offset: its gross liquidity changes by
the delta (and its initialized flag as the source prescribes) while every
other entry of the array is unchanged. -/
theorem tick_update_raw_offset :
    (∀ ta : TickArray, ∀ s : Int,
      check_in_array ta s = true ↔
        0 ≤ s - ta.start_tick_index ∧ s - ta.start_tick_index < 88) ∧
    (∀ tal tau tal2 tau2 : TickArray, ∀ tl tu d : Int,
      update_ticks_for_liquidity_change tal tau tl tu d = Except.ok (tal2, tau2) →
      check_in_array tal tl = true → check_in_array tau tu = true →
      tal.ticks.length = 88 → tau.ticks.length = 88 →
      (tal2.ticks.getD (tl - tal.start_tick_index).toNat defaultTick).liquidity_gross
        = (tal.ticks.getD (tl - tal.start_tick_index).toNat defaultTick).liquidity_gross
          + d.natAbs ∧
      (tal2.ticks.getD (tl - tal.start_tick_index).toNat defaultTick).initialized = true ∧
      (∀ j, j ≠ (tl - tal.start_tick_index).toNat →
        tal2.ticks.getD j defaultTick = tal.ticks.getD j defaultTick) ∧
      (tau2.ticks.getD (tu - tau.start_tick_index).toNat defaultTick).liquidity_gross
        = (tau.ticks.getD (tu - tau.start_tick_index).toNat defaultTick).liquidity_gross
          + d.natAbs ∧
      (tau2.ticks.getD (tu - tau.start_tick_index).toNat defaultTick).initialized = true ∧
      (∀ j, j ≠ (tu - tau.start_tick_index).toNat →
        tau2.ticks.getD j defaultTick = tau.ticks.getD j defaultTick)) ∧
    (∀ tal tau tal2 tau2 : TickArray, ∀ tl tu : Int, ∀ d : Nat,
      update_ticks_for_liquidity_decrease tal tau tl tu d = Except.ok (tal2, tau2) →
      check_in_array tal tl = true → check_in_array tau tu = true →
      tal.ticks.length = 88 → tau.ticks.length = 88 →
      (tal2.ticks.getD (tl - tal.start_tick_index).toNat defaultTick).liquidity_gross
        = (tal.ticks.getD (tl - tal.start_tick_index).toNat defaultTick).liquidity_gross
          - d ∧
      (tal2.ticks.getD (tl - tal.start_tick_index).toNat defaultTick).initialized
        = (if (tal.ticks.getD (tl - tal.start_tick_index).toNat
              defaultTick).liquidity_gross - d = 0 then false
           else (tal.ticks.getD (tl - tal.start_tick_index).toNat
              defaultTick).initialized) ∧
      (∀ j, j ≠ (tl - tal.start_tick_index).toNat →
        tal2.ticks.getD j defaultTick = tal.ticks.getD j defaultTick) ∧
      (tau2.ticks.getD (tu - tau.start_tick_index).toNat defaultTick).liquidity_gross
        = (tau.ticks.getD (tu - tau.start_tick_index).toNat defaultTick).liquidity_gross
          - d ∧
      (tau2.ticks.getD (tu - tau.start_tick_index).toNat defaultTick).initialized
        = (if (tau.ticks.getD (tu - tau.start_tick_index).toNat
              defaultTick).liquidity_gross - d = 0 then false
           else (tau.ticks.getD (tu - tau.start_tick_index).toNat
              defaultTick).initialized) ∧
      (∀ j, j ≠ (tu - tau.start_tick_index).toNat →
        tau2.ticks.getD j defaultTick = tau.ticks.getD j defaultTick)) :=
  ⟨fun ta s => by
      simp only [check_in_array, Bool.and_eq_true, decide_eq_true_eq]
      omega,
    tick_change_raw_offset_aux,
    tick_decrease_raw_offset_aux⟩

/-- Witness for tick_update_raw_offset on two spacing-10 arrays starting at 0,
with a liquidity increase of 5 followed by a matching decrease of 5 at ticks
50 and 60. -/
theorem tick_update_raw_offset_witness :
    check_in_array ta88Fix 50 = true ∧
    (updChangeFix.1.ticks.getD 50 defaultTick).liquidity_gross
      = (ta88Fix.ticks.getD 50 defaultTick).liquidity_gross + (5 : Int).natAbs ∧
    (updChangeFix.1.ticks.getD 50 defaultTick).initialized = true ∧
    (updChangeFix.2.ticks.getD 60 defaultTick).liquidity_gross
      = (ta88Fix.ticks.getD 60 defaultTick).liquidity_gross + (5 : Int).natAbs ∧
    (updDecreaseFix.1.ticks.getD 50 defaultTick).liquidity_gross
      = (updChangeFix.1.ticks.getD 50 defaultTick).liquidity_gross - 5 ∧
    (updDecreaseFix.2.ticks.getD 60 defaultTick).liquidity_gross
      = (updChangeFix.2.ticks.getD 60 defaultTick).liquidity_gross - 5 := by
  have T := tick_update_raw_offset
  have hch := T.2.1 ta88Fix ta88Fix updChangeFix.1 updChangeFix.2 50 60 5
    rfl rfl rfl rfl rfl
  have hdec := T.2.2 updChangeFix.1 updChangeFix.2 updDecreaseFix.1 updDecreaseFix.2
    50 60 5 rfl rfl rfl rfl rfl
  exact ⟨(T.1 ta88Fix 50).mpr (by decide), hch.1, hch.2.1, hch.2.2.2.1,
    hdec.1, hdec.2.2.2.1⟩

/-- C8: a tick is initialized exactly when its gross liquidity is nonzero.
The invariant holds for every tick of a freshly initialized tick array and is
preserved by every successful update_ticks_for_liquidity_change with a
positive delta (the cast of the positive u128 delta checked in
increase_liquidity) and by every successful
update_ticks_for_liquidity_decrease. -/
theorem tick_initialized_iff_gross_invariant :
    (∀ spacing : Nat, ∀ start : Int, ∀ pid : Nat, ∀ ta : TickArray,
      initialize_tick_array spacing start pid = Except.ok ta → ArrayInvariant ta) ∧
    (∀ tal tau : TickArray, ∀ tl tu d : Int, ∀ tal2 tau2 : TickArray, 0 < d →
      update_ticks_for_liquidity_change tal tau tl tu d = Except.ok (tal2, tau2) →
      ArrayInvariant tal → ArrayInvariant tau →
      ArrayInvariant tal2 ∧ ArrayInvariant tau2) ∧
    (∀ tal tau : TickArray, ∀ tl tu : Int, ∀ d : Nat, ∀ tal2 tau2 : TickArray,
      update_ticks_for_liquidity_decrease tal tau tl tu d = Except.ok (tal2, tau2) →
      ArrayInvariant tal → ArrayInvariant tau →
      ArrayInvariant tal2 ∧ ArrayInvariant tau2) :=
  ⟨c8part1, c8part2, c8part3⟩

/-- Witness for tick_initialized_iff_gross_invariant along a concrete
initialize, increase, decrease sequence. -/
theorem tick_initialized_iff_gross_invariant_witness :
    ArrayInvariant ta88Fix ∧
    ArrayInvariant updChangeFix.1 ∧ ArrayInvariant updChangeFix.2 ∧
    ArrayInvariant updDecreaseFix.1 ∧ ArrayInvariant updDecreaseFix.2 := by
  have T := tick_initialized_iff_gross_invariant
  have hinit := T.1 10 0 77 ta88Fix rfl
  have hch := T.2.1 ta88Fix ta88Fix 50 60 5 updChangeFix.1 updChangeFix.2
    (by decide) rfl hinit hinit
  have hdec := T.2.2 updChangeFix.1 updChangeFix.2 50 60 5 updDecreaseFix.1
    updDecreaseFix.2 rfl hch.1 hch.2
  exact ⟨hinit, hch.1, hch.2, hdec.1, hdec.2⟩

set_option maxHeartbeats 2000000 in
/-- C7: a migrated bonding curve is terminal.  On any state with is_migrated
set, every buy, sell and migrate call fails (so a second migration performs no
fund transfer and no post-migration trade succeeds); moreover every successful
migration sets is_migrated, and no successful buy or sell ever changes it, so
after a migration every reachable state stays migrated. -/
theorem migrated_curve_is_terminal
    (g : Global) (bc : BondingCurve) (uv : UserVolumeAccumulator)
    (buyer_lamports token_amount max_sol_cost utb svl ta2 msr ak mk lp ap apool : Nat)
    (now now2 : Int) (h : bc.is_migrated = true) :
    isOkE (buy_tokens_step g bc uv buyer_lamports token_amount max_sol_cost now) = false ∧
    isOkE (sell_tokens_step g bc uv utb svl ta2 msr now2) = false ∧
    isOkE (migrate_to_amm_step g bc ak mk lp ap apool) = false ∧
    (∀ g0 bc0 ak0 mk0 lp0 ap0 apool0 o,
      migrate_to_amm_step g0 bc0 ak0 mk0 lp0 ap0 apool0 = Except.ok o →
      o.curve.is_migrated = true) ∧
    (∀ g0 bc0 uv0 bl0 ta0 msc0 o, ∀ n0 : Int,
      buy_tokens_step g0 bc0 uv0 bl0 ta0 msc0 n0 = Except.ok o →
      o.curve.is_migrated = bc0.is_migrated) ∧
    (∀ g0 bc0 uv0 utb0 svl0 ta0 msr0 o, ∀ n0 : Int,
      sell_tokens_step g0 bc0 uv0 utb0 svl0 ta0 msr0 n0 = Except.ok o →
      o.curve.is_migrated = bc0.is_migrated) := by
  refine ⟨?_, ?_, ?_, ?_, ?_, ?_⟩
  · simp only [buy_tokens_step, bind, Except.bind]
    cases hgp : g.is_paused <;> simp [hgp, h, isOkE, pure, Except.pure]
  · simp only [sell_tokens_step, bind, Except.bind]
    cases hgp : g.is_paused <;> simp [hgp, h, isOkE, pure, Except.pure]
  · simp only [migrate_to_amm_step, bind, Except.bind]
    cases hgp : g.is_paused <;> cases hme : g.migration_enabled <;>
      cases hth : is_migration_threshold_met bc <;>
        simp [hgp, hme, hth, h, isOkE, pure, Except.pure]
  · intro g0 bc0 ak0 mk0 lp0 ap0 apool0 o h0
    simp only [migrate_to_amm_step, bind, Except.bind, pure, Except.pure] at h0
    repeat' split at h0
    all_goals try exact Except.noConfusion h0
    all_goals (injection h0 with h0; subst h0; rfl)
  · intro g0 bc0 uv0 bl0 ta0 msc0 o n0 h0
    simp only [buy_tokens_step, bind, Except.bind, pure, Except.pure] at h0
    repeat' split at h0
    all_goals try exact Except.noConfusion h0
    all_goals (injection h0 with h0; subst h0; rfl)
  · intro g0 bc0 uv0 utb0 svl0 ta0 msr0 o n0 h0
    simp only [sell_tokens_step, bind, Except.bind, pure, Except.pure] at h0
    repeat' split at h0
    all_goals try exact Except.noConfusion h0
    all_goals (injection h0 with h0; subst h0; rfl)

/-- Witness for migrated_curve_is_terminal at the concrete migrated curve
bcMigratedFix, together with the flag of a concrete successful migration. -/
theorem migrated_curve_is_terminal_witness :
    bcMigratedFix.is_migrated = true ∧
    isOkE (buy_tokens_step gFix bcMigratedFix uvFix 10 1 1 0) = false ∧
    isOkE (sell_tokens_step gFix bcMigratedFix uvFix 10 10 1 1 0) = false ∧
    isOkE (migrate_to_amm_step gFix bcMigratedFix 1 2 700 8 9) = false ∧
    migOutFix.curve.is_migrated = true := by
  have T := migrated_curve_is_terminal gFix bcMigratedFix uvFix
    10 1 1 10 10 1 1 1 2 700 8 9 0 0 rfl
  exact ⟨rfl, T.1, T.2.1, T.2.2.1, T.2.2.2.1 gFix bcReadyFix 1 2 700 8 9 migOutFix rfl⟩

set_option maxHeartbeats 2000000 in
/-- C10: a successful migrate_to_amm leaves all four reserve ledger fields of
the bonding curve unchanged; the only curve fields it modifies are
is_migrated, amm_program_id and amm_pool_address, and on the Global account it
increments successful_migrations and adds the migration fee to
total_fees_collected, leaving every other field unchanged. -/
theorem migrate_frame_effects
    (g : Global) (bc : BondingCurve) (ak mk lp ap apool : Nat) (o : MigrateOutcome)
    (h : migrate_to_amm_step g bc ak mk lp ap apool = Except.ok o) :
    o.curve.virtual_sol_reserves = bc.virtual_sol_reserves ∧
    o.curve.virtual_token_reserves = bc.virtual_token_reserves ∧
    o.curve.real_sol_reserves = bc.real_sol_reserves ∧
    o.curve.real_token_reserves = bc.real_token_reserves ∧
    o.curve.is_migrated = true ∧
    o.curve.amm_program_id = some ap ∧
    o.curve.amm_pool_address = some apool ∧
    o.curve.token_mint = bc.token_mint ∧
    o.curve.creator = bc.creator ∧
    o.curve.name = bc.name ∧
    o.curve.symbol = bc.symbol ∧
    o.curve.lp_reserve_supply = bc.lp_reserve_supply ∧
    o.curve.migration_threshold = bc.migration_threshold ∧
    o.curve.migration_ready = bc.migration_ready ∧
    o.curve.total_volume_sol = bc.total_volume_sol ∧
    o.curve.total_volume_tokens = bc.total_volume_tokens ∧
    o.curve.platform_fees_collected = bc.platform_fees_collected ∧
    o.curve.creator_fees_collected = bc.creator_fees_collected ∧
    o.curve.buy_count = bc.buy_count ∧
    o.curve.sell_count = bc.sell_count ∧
    o.curve.created_at = bc.created_at ∧
    o.curve.last_trade_at = bc.last_trade_at ∧
    o.global.successful_migrations = g.successful_migrations + 1 ∧
    o.global.total_fees_collected = g.total_fees_collected + o.migration_fee ∧
    o.global.admin_authority = g.admin_authority ∧
    o.global.multisig_authority = g.multisig_authority ∧
    o.global.platform_wallet = g.platform_wallet ∧
    o.global.creator_wallet = g.creator_wallet ∧
    o.global.platform_fee_basis_points = g.platform_fee_basis_points ∧
    o.global.creator_fee_basis_points = g.creator_fee_basis_points ∧
    o.global.migration_fee_basis_points = g.migration_fee_basis_points ∧
    o.global.max_slippage_basis_points = g.max_slippage_basis_points ∧
    o.global.migration_enabled = g.migration_enabled ∧
    o.global.is_paused = g.is_paused ∧
    o.global.total_volume_sol = g.total_volume_sol ∧
    o.global.tokens_created = g.tokens_created := by
  simp only [migrate_to_amm_step, cMulDiv64, cSub, cAdd64, cAdd32, bind, Except.bind,
    pure, Except.pure] at h
  split_ifs at h with h1 h2 h3 h4 h5 h6 h7 h8 h9 h10 <;> try exact Except.noConfusion h
  all_goals repeat' split at h
  all_goals try exact Except.noConfusion h
  all_goals try contradiction
  rename_i x1 w1 e1 x2 w2 e2 x3 w3 e3 x4 w4 e4
  injection e1 with e1
  subst e1
  split_ifs at e2 e4
  injection e2 with e2
  injection e3 with e3
  injection e4 with e4
  subst e2; subst e3; subst e4
  injection h with h
  subst h
  exact ⟨rfl, rfl, rfl, rfl, rfl, rfl, rfl, rfl, rfl, rfl, rfl, rfl, rfl, rfl, rfl, rfl,
    rfl, rfl, rfl, rfl, rfl, rfl, rfl, rfl, rfl, rfl, rfl, rfl, rfl, rfl, rfl, rfl, rfl,
    rfl, rfl, rfl⟩

/-- Witness for migrate_frame_effects at the concrete ready curve
bcReadyFix. -/
theorem migrate_frame_effects_witness :
    migOutFix.curve.real_sol_reserves = bcReadyFix.real_sol_reserves ∧
    migOutFix.curve.real_token_reserves = bcReadyFix.real_token_reserves ∧
    migOutFix.curve.virtual_sol_reserves = bcReadyFix.virtual_sol_reserves ∧
    migOutFix.curve.virtual_token_reserves = bcReadyFix.virtual_token_reserves ∧
    migOutFix.curve.is_migrated = true ∧
    migOutFix.global.successful_migrations = gFix.successful_migrations + 1 ∧
    migOutFix.global.total_fees_collected
      = gFix.total_fees_collected + migOutFix.migration_fee := by
  have T := migrate_frame_effects gFix bcReadyFix 1 2 700 8 9 migOutFix rfl
  obtain ⟨a1, a2, a3, a4, a5, a6, a7, a8, a9, a10, a11, a12, a13, a14, a15, a16, a17,
    a18, a19, a20, a21, a22, a23, a24, rest⟩ := T
  exact ⟨a3, a4, a1, a2, a5, a23, a24⟩

end LaunchPad
